import Mathlib

/-!
Verification of the WebSocket tunneling core of the google-redirector
program (`main.go`), as a shallow embedding in Lean 4.

Pure helpers (`isWebSocketRequest`, `writeSwitchingProtocols`'s string
construction, the upstream request builder, host:port resolution and the
`pipe` shutdown sequence) are translated directly.  Effectful control flow
(`handleWebSocket`, `dialBackendWebSocket`) is embedded as a trace
function: an `Env` records the outcome of each external effect (dial,
TLS handshake, writes, response parse, hijack) and the function produces
the sequence of observable events the Go code performs under those
outcomes, including its `defer`red connection closes.
-/

namespace GoogleRedirector

/-- Helper for substring search on character lists: does the first list
occur at the head of the second one. -/
def startsWithChars : List Char → List Char → Bool
  | [], _ => true
  | _ :: _, [] => false
  | a :: as, b :: bs => a == b && startsWithChars as bs

/-- Does `needle` occur as a contiguous sublist of the first argument. -/
def containsChars : List Char → List Char → Bool
  | [], needle => needle.isEmpty
  | c :: rest, needle => startsWithChars needle (c :: rest) || containsChars rest needle

/-- Go `strings.Contains s sub`: `sub` occurs as a substring of `s`
(always true for the empty substring). -/
def goContains (s sub : String) : Bool :=
  containsChars s.data sub.data

/-- Go `strings.ToLower`, as a characterwise map (for the ASCII header
values the program compares, `Char.toLower` agrees with Go). -/
def toLowerStr (s : String) : String :=
  ⟨s.data.map Char.toLower⟩

/-- The caller's original HTTP request, viewed through the operations the
program performs on it: `header name` models `r.Header.Get(name)` (the
empty string when the header is absent), together with the URL path and
raw query used to build the upstream request. -/
structure Request where
  header : String → String
  path : String
  rawQuery : String

/-- `isWebSocketRequest` from `main.go`: the `Upgrade` header lowercased
equals "websocket" and the lowercased `Connection` header contains the
substring "upgrade". -/
def isWebSocketRequest (r : Request) : Bool :=
  toLowerStr (r.header "Upgrade") == "websocket" &&
    goContains (toLowerStr (r.header "Connection")) "upgrade"

/-- Case-insensitive equality of strings, as in the spec's wording
for the Upgrade Detector. -/
def caseInsensitiveEq (a b : String) : Prop :=
  toLowerStr a = toLowerStr b

/-- Case-insensitive containment of the token `tok` in `s`; the spec's
section 8 glosses "contains the token" as a substring match. -/
def containsTokenCaseInsensitive (s tok : String) : Prop :=
  goContains (toLowerStr s) (toLowerStr tok) = true

/-- The Upgrade Detector contract as the spec words it. -/
def upgradeDetectorSpec (r : Request) : Prop :=
  caseInsensitiveEq (r.header "Upgrade") "websocket" ∧
  containsTokenCaseInsensitive (r.header "Connection") "upgrade"

/-- The three ways the root handler in `main` can dispatch a request:
reject it at the verification-header gate with a status and body, hand it
to the WebSocket tunnel, or pass it to the reverse proxy. -/
inductive HandlerAction where
  | gateReject (status : Nat) (body : String)
  | tunnel
  | passThrough
deriving DecidableEq

/-- The root handler registered with `http.HandleFunc("/", ...)` in
`main`: when a verification header name is configured and the request's
value for it is empty, respond 502 "Bad Gateway"; otherwise dispatch on
`isWebSocketRequest`. -/
def handleRoot (verificationHeader : String) (r : Request) : HandlerAction :=
  if verificationHeader != "" && r.header verificationHeader == "" then
    .gateReject 502 "Bad Gateway"
  else if isWebSocketRequest r then .tunnel
  else .passThrough

/-- Claim C3: the Upgrade Detector returns true iff the `Upgrade` header
case-insensitively equals "websocket" and the `Connection` header
case-insensitively contains the token "upgrade"; when the `Upgrade`
header is absent or empty it returns false.  (The detector is a pure
function of the two headers, so it has no side effects by construction.) -/
theorem isWebSocketRequest_iff_spec (r : Request) :
    (isWebSocketRequest r = true ↔ upgradeDetectorSpec r) ∧
    (r.header "Upgrade" = "" → isWebSocketRequest r = false) := by
  constructor
  · have h1 : toLowerStr "websocket" = "websocket" := by decide
    have h2 : toLowerStr "upgrade" = "upgrade" := by decide
    unfold upgradeDetectorSpec caseInsensitiveEq containsTokenCaseInsensitive
    rw [h1, h2]
    simp [isWebSocketRequest]
  · intro h
    have hempty : (toLowerStr "" == "websocket") = false := by decide
    simp [isWebSocketRequest, h, hempty]

/-- A concrete request with every header absent, used to instantiate the
gate theorem. -/
def emptyHeaderReq : Request :=
  { header := fun _ => "", path := "/", rawQuery := "" }

/-- Claim C3 witness: the theorem applied at a concrete request whose
`Upgrade` header is absent. -/
theorem isWebSocketRequest_iff_spec_witness :
    isWebSocketRequest emptyHeaderReq = false :=
  (isWebSocketRequest_iff_spec emptyHeaderReq).2 rfl

/-- Claim C10: with a non-empty verification header name configured, a
request with an empty or absent value for it is rejected with 502
"Bad Gateway" (regardless of whether it is an upgrade request, i.e. the
gate runs before upgrade detection), a request with any non-empty value
passes the gate and is dispatched purely by upgrade detection, and the
outcome never depends on the particular non-empty value (no comparison
against an expected secret). -/
theorem gate_rejects_empty_value_only (vh : String) (r : Request)
    (hvh : vh ≠ "") :
    (r.header vh = "" → handleRoot vh r = .gateReject 502 "Bad Gateway") ∧
    (r.header vh ≠ "" →
      handleRoot vh r = (if isWebSocketRequest r then .tunnel else .passThrough)) ∧
    (∀ s : Request, s.header vh ≠ "" → r.header vh ≠ "" →
      isWebSocketRequest s = isWebSocketRequest r →
      handleRoot vh s = handleRoot vh r) := by
  refine ⟨?_, ?_, ?_⟩
  · intro h
    simp [handleRoot, h, hvh]
  · intro h
    simp [handleRoot, h, hvh]
  · intro s hs hr hiff
    simp [handleRoot, hs, hr, hvh, hiff]

/-- A concrete request carrying a non-empty verification header value. -/
def verifiedReq : Request :=
  { header := fun name => if name == "X-Verify" then "anything" else "",
    path := "/", rawQuery := "" }

/-- Claim C10 witness: the gate theorem applied at the concrete header
name "X-Verify", once for an absent value and once for a present one. -/
theorem gate_rejects_empty_value_only_witness :
    handleRoot "X-Verify" emptyHeaderReq = .gateReject 502 "Bad Gateway" ∧
    handleRoot "X-Verify" verifiedReq = .passThrough := by
  constructor
  · exact (gate_rejects_empty_value_only "X-Verify" emptyHeaderReq (by decide)).1 rfl
  · have h := (gate_rejects_empty_value_only "X-Verify" verifiedReq (by decide)).2.1
      (by decide)
    rw [h]
    decide

/-- Observable events `handleWebSocket` and `dialBackendWebSocket`
perform, in program order.  `closeUpstream`/`closeClient` cover both
explicit `conn.Close()` calls and the `defer`red ones; `httpError` is
`http.Error` on the still-structured response writer; `hijack` is a
successful `hijacker.Hijack()`; `writeClient` carries the exact bytes
written to the hijacked connection; `relay` is the spawning of the two
`pipe` goroutines and the `wg.Wait()`. -/
inductive Event where
  | dialUpstream
  | tlsHandshake
  | writeUpgradeReq
  | readUpstreamResp (status : Nat)
  | closeUpstream
  | httpError (status : Nat) (body : String)
  | hijack
  | writeClient (bytes : String)
  | closeClient
  | relay
deriving DecidableEq

/-- The upstream's parsed handshake response: status code plus
`resp.Header.Get` (empty string when a header is absent). -/
structure UpstreamResponse where
  statusCode : Nat
  header : String → String

/-- Outcomes of the external effects a single `handleWebSocket` call
performs, fixed up front so the handler becomes a pure trace function:
TCP dial success, TLS handshake success (consulted only for wss), the
upstream request write, the parsed upstream response (`none` models a
read/parse error), hijack support and success, and the success of the
101-response write to the client. -/
structure Env where
  dialOk : Bool
  tlsOk : Bool
  writeReqOk : Bool
  readResp : Option UpstreamResponse
  hijackSupported : Bool
  hijackOk : Bool
  clientWriteOk : Bool

/-- The ways `dialBackendWebSocket` fails, mirroring its early returns:
dial error, TLS handshake error, request write error, response
read/parse error, and a non-101 status (`fmt.Errorf("expected 101, got
%d", resp.StatusCode)` carries the actual status). -/
inductive DialError where
  | dialFailed
  | tlsFailed
  | writeFailed
  | readFailed
  | badStatus (status : Nat)
deriving DecidableEq

/-- `dialBackendWebSocket` from `main.go` as a trace function: given the
scheme of the backend URL ("ws" or "wss") and the effect outcomes, it
returns the function's result (the parsed 101 response, or the error of
the failing step) together with the events performed.  Every error path
after a successful dial closes the upstream connection, exactly as the
Go code calls `conn.Close()` before each early return. -/
def dialBackendWebSocket (scheme : String) (env : Env) :
    Except DialError UpstreamResponse × List Event :=
  if !env.dialOk then (.error .dialFailed, [])
  else if scheme == "wss" && !env.tlsOk then
    (.error .tlsFailed, [.dialUpstream, .closeUpstream])
  else
    let evs := [Event.dialUpstream] ++
      (if scheme == "wss" then [Event.tlsHandshake] else [])
    if !env.writeReqOk then (.error .writeFailed, evs ++ [.closeUpstream])
    else
      match env.readResp with
      | none => (.error .readFailed, evs ++ [.writeUpgradeReq, .closeUpstream])
      | some resp =>
        if resp.statusCode != 101 then
          (.error (.badStatus resp.statusCode),
           evs ++ [.writeUpgradeReq, .readUpstreamResp resp.statusCode, .closeUpstream])
        else
          (.ok resp, evs ++ [.writeUpgradeReq, .readUpstreamResp resp.statusCode])

/-- The single failure of `writeSwitchingProtocols`: the upstream's 101
response carried no `Sec-WebSocket-Accept` header (the spec's
`MissingAcceptToken`). -/
inductive SynthError where
  | missingAcceptToken
deriving DecidableEq

/-- The mandatory part of the synthesized 101 response, as
`writeSwitchingProtocols` concatenates it before the conditional
protocol line. -/
def synthBase (accept : String) : String :=
  "HTTP/1.1 101 Switching Protocols\r\n" ++
  "Upgrade: websocket\r\n" ++
  "Connection: Upgrade\r\n" ++
  "Sec-WebSocket-Accept: " ++ accept ++ "\r\n"

/-- `writeSwitchingProtocols` from `main.go`, with the write to the
client connection factored out: it either fails because the upstream
response lacked `Sec-WebSocket-Accept`, or returns the exact bytes the
Go code passes to `clientConn.Write`.  The protocol line is appended iff
the client sent a non-empty `Sec-WebSocket-Protocol` and the upstream's
value is non-empty and a substring of the client's value
(`strings.Contains(proto, backendProto)`). -/
def writeSwitchingProtocols (clientReq : Request) (backendResp : UpstreamResponse) :
    Except SynthError String :=
  let accept := backendResp.header "Sec-WebSocket-Accept"
  if accept == "" then .error .missingAcceptToken
  else
    let base := synthBase accept
    let proto := clientReq.header "Sec-WebSocket-Protocol"
    let resp :=
      if proto != "" then
        let backendProto := backendResp.header "Sec-WebSocket-Protocol"
        if backendProto != "" && goContains proto backendProto then
          base ++ "Sec-WebSocket-Protocol: " ++ backendProto ++ "\r\n"
        else base
      else base
    .ok (resp ++ "\r\n")

/-- The scheme of the backend WebSocket URL built in `handleWebSocket`:
"wss" when the configured target is https, else "ws". -/
def wsScheme (targetScheme : String) : String :=
  if targetScheme == "https" then "wss" else "ws"

/-- `handleWebSocket` from `main.go` as a trace function.  The dial runs
first; on its failure the handler answers 502 and returns.  Then
`defer backendConn.Close()` is registered, so every later return ends in
`closeUpstream`; after a successful hijack `defer clientConn.Close()` is
registered, so later returns end in `closeClient, closeUpstream` (LIFO).
The synthesized response is written only when it could be built; `relay`
happens only when that write succeeded. -/
def handleWebSocket (targetScheme : String) (r : Request) (env : Env) : List Event :=
  let d := dialBackendWebSocket (wsScheme targetScheme) env
  match d.1 with
  | .error _ => d.2 ++ [.httpError 502 "Failed to connect to backend"]
  | .ok resp =>
    if !env.hijackSupported then
      d.2 ++ [.httpError 500 "Hijacking not supported", .closeUpstream]
    else if !env.hijackOk then
      d.2 ++ [.closeUpstream]
    else
      match writeSwitchingProtocols r resp with
      | .error _ => d.2 ++ [.hijack, .closeClient, .closeUpstream]
      | .ok bytes =>
        if !env.clientWriteOk then
          d.2 ++ [.hijack, .writeClient bytes, .closeClient, .closeUpstream]
        else
          d.2 ++ [.hijack, .writeClient bytes, .relay, .closeClient, .closeUpstream]

/-- The spec's hijack state machine: {Idle, UpstreamEstablished,
Hijacked, Relaying, Closed}. -/
inductive St where
  | Idle
  | UpstreamEstablished
  | Hijacked
  | Relaying
  | Closed
deriving DecidableEq

/-- Transition function of the hijack state machine.  Entering
`Hijacked` is permitted only from `UpstreamEstablished` — a `hijack`
event in any other state is rejected (`none`).  A parsed 101 response
establishes the upstream; close events after establishment lead to
`Closed`; all other events leave the state unchanged. -/
def wsStep (s : St) (e : Event) : Option St :=
  match e with
  | .hijack => if s = .UpstreamEstablished then some .Hijacked else none
  | .readUpstreamResp n =>
      some (if s = .Idle ∧ n = 101 then .UpstreamEstablished else s)
  | .relay => some (if s = .Hijacked then .Relaying else s)
  | .closeClient => some .Closed
  | .closeUpstream => some (if s = .Idle then .Idle else .Closed)
  | _ => some s

/-- Run the hijack state machine from an arbitrary state. -/
def runFrom (s : St) (tr : List Event) : Option St :=
  tr.foldlM wsStep s

/-- Run the hijack state machine from `Idle` over a trace; `none` means
the trace performed a forbidden transition. -/
def runMachine (tr : List Event) : Option St :=
  runFrom .Idle tr

theorem runFrom_append (s : St) (l1 l2 : List Event) :
    runFrom s (l1 ++ l2) = (runFrom s l1).bind (fun t => runFrom t l2) := by
  induction l1 generalizing s with
  | nil => simp [runFrom]
  | cons e l ih =>
    simp only [List.cons_append, runFrom, List.foldlM_cons]
    cases wsStep s e with
    | none => simp
    | some t => simp [ih t]

/-- Classification of `dialBackendWebSocket`: its events drive the
hijack machine from `Idle` to `UpstreamEstablished` exactly when it
succeeds (staying in `Idle` on every failure), it never hijacks, relays
or writes to the client, and success certifies that the dial, the TLS
handshake (when the scheme is wss), the request write and the 101
response parse all succeeded. -/
theorem dial_cases (scheme : String) (env : Env) :
    runFrom .Idle (dialBackendWebSocket scheme env).2 =
      some (match (dialBackendWebSocket scheme env).1 with
            | .ok _ => St.UpstreamEstablished
            | .error _ => St.Idle) ∧
    Event.hijack ∉ (dialBackendWebSocket scheme env).2 ∧
    Event.relay ∉ (dialBackendWebSocket scheme env).2 ∧
    (∀ bs, Event.writeClient bs ∉ (dialBackendWebSocket scheme env).2) ∧
    (∀ resp, (dialBackendWebSocket scheme env).1 = .ok resp →
      env.dialOk = true ∧ (scheme = "wss" → env.tlsOk = true) ∧
      env.writeReqOk = true ∧ env.readResp = some resp ∧
      resp.statusCode = 101) := by
  obtain ⟨dOk, tOk, wOk, rr, hSup, hOk, cOk⟩ := env
  by_cases hw : scheme = "wss" <;>
    cases dOk <;> cases tOk <;> cases wOk <;>
    rcases rr with _ | resp <;>
    simp_all [dialBackendWebSocket, runFrom, wsStep] <;>
    rcases eq_or_ne resp.statusCode 101 with h101 | h101 <;>
    simp_all [wsStep]

/-- Claim C1: every possible execution of `handleWebSocket` is accepted
by the hijack state machine, whose transition function forbids entering
`Hijacked` except from `UpstreamEstablished` — so the client connection
is hijacked strictly after the upstream handshake; moreover a hijack in
the trace certifies that the upstream dial, the TLS handshake (when the
backend is wss), the synthetic request write and the 101 response parse
all succeeded. -/
theorem hijack_only_after_upstream_established
    (targetScheme : String) (r : Request) (env : Env) :
    (runMachine (handleWebSocket targetScheme r env)).isSome = true ∧
    (Event.hijack ∈ handleWebSocket targetScheme r env →
      env.dialOk = true ∧ (wsScheme targetScheme = "wss" → env.tlsOk = true) ∧
      env.writeReqOk = true ∧
      (∃ resp, env.readResp = some resp ∧ resp.statusCode = 101) ∧
      env.hijackSupported = true ∧ env.hijackOk = true) := by
  obtain ⟨hrun, hnohij, hnorelay, hnowc, hok⟩ := dial_cases (wsScheme targetScheme) env
  rcases hd : (dialBackendWebSocket (wsScheme targetScheme) env).1 with e | resp
  · rw [hd] at hrun
    simp only at hrun
    have htr : handleWebSocket targetScheme r env =
        (dialBackendWebSocket (wsScheme targetScheme) env).2 ++
          [.httpError 502 "Failed to connect to backend"] := by
      simp [handleWebSocket, hd]
    refine ⟨?_, ?_⟩
    · rw [runMachine, htr, runFrom_append, hrun]
      simp [runFrom, wsStep]
    · intro hmem
      rw [htr] at hmem
      rcases List.mem_append.mp hmem with h | h
      · exact absurd h hnohij
      · simp at h
  · rw [hd] at hrun
    simp only at hrun
    obtain ⟨hdOk, htls, hwOk, hrr, h101⟩ := hok resp hd
    cases hhs : env.hijackSupported with
    | false =>
      have htr : handleWebSocket targetScheme r env =
          (dialBackendWebSocket (wsScheme targetScheme) env).2 ++
            [.httpError 500 "Hijacking not supported", .closeUpstream] := by
        simp [handleWebSocket, hd, hhs]
      refine ⟨?_, ?_⟩
      · rw [runMachine, htr, runFrom_append, hrun]
        simp [runFrom, wsStep]
      · intro hmem
        rw [htr] at hmem
        rcases List.mem_append.mp hmem with h | h
        · exact absurd h hnohij
        · simp at h
    | true =>
      cases hho : env.hijackOk with
      | false =>
        have htr : handleWebSocket targetScheme r env =
            (dialBackendWebSocket (wsScheme targetScheme) env).2 ++
              [.closeUpstream] := by
          simp [handleWebSocket, hd, hhs, hho]
        refine ⟨?_, ?_⟩
        · rw [runMachine, htr, runFrom_append, hrun]
          simp [runFrom, wsStep]
        · intro hmem
          rw [htr] at hmem
          rcases List.mem_append.mp hmem with h | h
          · exact absurd h hnohij
          · simp at h
      | true =>
        rcases hws : writeSwitchingProtocols r resp with se | bytes
        · have htr : handleWebSocket targetScheme r env =
              (dialBackendWebSocket (wsScheme targetScheme) env).2 ++
                [.hijack, .closeClient, .closeUpstream] := by
            simp [handleWebSocket, hd, hhs, hho, hws]
          refine ⟨?_, fun _ => ⟨hdOk, htls, hwOk, ⟨resp, hrr, h101⟩, rfl, rfl⟩⟩
          rw [runMachine, htr, runFrom_append, hrun]
          simp [runFrom, wsStep]
        · cases hcw : env.clientWriteOk with
          | false =>
            have htr : handleWebSocket targetScheme r env =
                (dialBackendWebSocket (wsScheme targetScheme) env).2 ++
                  [.hijack, .writeClient bytes, .closeClient, .closeUpstream] := by
              simp [handleWebSocket, hd, hhs, hho, hws, hcw]
            refine ⟨?_, fun _ => ⟨hdOk, htls, hwOk, ⟨resp, hrr, h101⟩, rfl, rfl⟩⟩
            rw [runMachine, htr, runFrom_append, hrun]
            simp [runFrom, wsStep]
          | true =>
            have htr : handleWebSocket targetScheme r env =
                (dialBackendWebSocket (wsScheme targetScheme) env).2 ++
                  [.hijack, .writeClient bytes, .relay, .closeClient,
                    .closeUpstream] := by
              simp [handleWebSocket, hd, hhs, hho, hws, hcw]
            refine ⟨?_, fun _ => ⟨hdOk, htls, hwOk, ⟨resp, hrr, h101⟩, rfl, rfl⟩⟩
            rw [runMachine, htr, runFrom_append, hrun]
            simp [runFrom, wsStep]

/-- An upstream response a well-behaved backend would send: status 101
with an accept token. -/
def demoResp101 : UpstreamResponse :=
  ⟨101, fun name =>
    if name == "Sec-WebSocket-Accept" then "s3pPLMBiTxaQ9kYGzzhZRbK+xOo=" else ""⟩

/-- An environment where every external effect succeeds. -/
def envAllOk : Env :=
  ⟨true, true, true, some demoResp101, true, true, true⟩

/-- Claim C1 witness: the theorem applied to the all-success
environment, discharging the hijack-membership hypothesis concretely. -/
theorem hijack_only_after_upstream_established_witness :
    (runMachine (handleWebSocket "https" emptyHeaderReq envAllOk)).isSome = true ∧
    envAllOk.dialOk = true := by
  refine ⟨(hijack_only_after_upstream_established "https" emptyHeaderReq envAllOk).1, ?_⟩
  exact ((hijack_only_after_upstream_established "https" emptyHeaderReq envAllOk).2
    (by decide)).1

/-- Claim C2: when the upstream handshake response has any status other
than 101 (and the steps before it succeeded), `dialBackendWebSocket`
fails with an error carrying the actual status, the upstream connection
is closed, the handler answers 502 over the ordinary HTTP machinery, and
the client connection is never hijacked. -/
theorem rejected_upstream_status_no_hijack
    (targetScheme : String) (r : Request) (env : Env) (resp : UpstreamResponse)
    (hd : env.dialOk = true) (ht : wsScheme targetScheme = "wss" → env.tlsOk = true)
    (hw : env.writeReqOk = true) (hr : env.readResp = some resp)
    (hs : resp.statusCode ≠ 101) :
    (dialBackendWebSocket (wsScheme targetScheme) env).1 =
      .error (.badStatus resp.statusCode) ∧
    Event.closeUpstream ∈ (dialBackendWebSocket (wsScheme targetScheme) env).2 ∧
    handleWebSocket targetScheme r env =
      (dialBackendWebSocket (wsScheme targetScheme) env).2 ++
        [Event.httpError 502 "Failed to connect to backend"] ∧
    Event.hijack ∉ handleWebSocket targetScheme r env := by
  by_cases hws : wsScheme targetScheme = "wss"
  · have htl := ht hws
    have hpair : dialBackendWebSocket (wsScheme targetScheme) env =
        (.error (.badStatus resp.statusCode),
         [.dialUpstream, .tlsHandshake, .writeUpgradeReq,
          .readUpstreamResp resp.statusCode, .closeUpstream]) := by
      simp [dialBackendWebSocket, hd, htl, hw, hr, hs, hws]
    refine ⟨by rw [hpair], by rw [hpair]; simp, ?_, ?_⟩
    · simp [handleWebSocket, hpair]
    · simp [handleWebSocket, hpair]
  · have hpair : dialBackendWebSocket (wsScheme targetScheme) env =
        (.error (.badStatus resp.statusCode),
         [.dialUpstream, .writeUpgradeReq,
          .readUpstreamResp resp.statusCode, .closeUpstream]) := by
      simp [dialBackendWebSocket, hd, hw, hr, hs, hws]
    refine ⟨by rw [hpair], by rw [hpair]; simp, ?_, ?_⟩
    · simp [handleWebSocket, hpair]
    · simp [handleWebSocket, hpair]

/-- An upstream response with status 404, as in the spec's test. -/
def demoResp404 : UpstreamResponse :=
  ⟨404, fun _ => ""⟩

/-- An environment where the transport steps succeed but the upstream
answers 404 to the handshake. -/
def env404 : Env :=
  ⟨true, true, true, some demoResp404, true, true, true⟩

/-- Claim C2 witness: the theorem applied to the 404-answering upstream. -/
theorem rejected_upstream_status_no_hijack_witness :
    (dialBackendWebSocket (wsScheme "https") env404).1 =
      .error (.badStatus 404) ∧
    Event.hijack ∉ handleWebSocket "https" emptyHeaderReq env404 := by
  have h := rejected_upstream_status_no_hijack "https" emptyHeaderReq env404
    demoResp404 rfl (fun _ => rfl) rfl rfl (by decide)
  exact ⟨h.1, h.2.2.2⟩

/-- Claim C5: when the upstream's 101 response lacks
`Sec-WebSocket-Accept` and the tunnel got as far as a successful hijack,
the response synthesizer fails with `missingAcceptToken`, nothing is
written to the client and no relay starts, and both legs are closed by
the deferred closes. -/
theorem missing_accept_aborts
    (targetScheme : String) (r : Request) (env : Env) (resp : UpstreamResponse)
    (hd : env.dialOk = true) (ht : wsScheme targetScheme = "wss" → env.tlsOk = true)
    (hw : env.writeReqOk = true) (hr : env.readResp = some resp)
    (h101 : resp.statusCode = 101)
    (ha : resp.header "Sec-WebSocket-Accept" = "")
    (hhs : env.hijackSupported = true) (hho : env.hijackOk = true) :
    writeSwitchingProtocols r resp = .error .missingAcceptToken ∧
    handleWebSocket targetScheme r env =
      (dialBackendWebSocket (wsScheme targetScheme) env).2 ++
        [Event.hijack, Event.closeClient, Event.closeUpstream] ∧
    Event.relay ∉ handleWebSocket targetScheme r env ∧
    (∀ bs, Event.writeClient bs ∉ handleWebSocket targetScheme r env) := by
  have hsynth : writeSwitchingProtocols r resp = .error .missingAcceptToken := by
    simp [writeSwitchingProtocols, ha]
  by_cases hws : wsScheme targetScheme = "wss"
  · have htl := ht hws
    have hpair : dialBackendWebSocket (wsScheme targetScheme) env =
        (.ok resp,
         [.dialUpstream, .tlsHandshake, .writeUpgradeReq,
          .readUpstreamResp resp.statusCode]) := by
      simp [dialBackendWebSocket, hd, htl, hw, hr, h101, hws]
    refine ⟨hsynth, ?_, ?_, ?_⟩
    · simp [handleWebSocket, hpair, hhs, hho, hsynth]
    · simp [handleWebSocket, hpair, hhs, hho, hsynth]
    · intro bs
      simp [handleWebSocket, hpair, hhs, hho, hsynth]
  · have hpair : dialBackendWebSocket (wsScheme targetScheme) env =
        (.ok resp,
         [.dialUpstream, .writeUpgradeReq,
          .readUpstreamResp resp.statusCode]) := by
      simp [dialBackendWebSocket, hd, hw, hr, h101, hws]
    refine ⟨hsynth, ?_, ?_, ?_⟩
    · simp [handleWebSocket, hpair, hhs, hho, hsynth]
    · simp [handleWebSocket, hpair, hhs, hho, hsynth]
    · intro bs
      simp [handleWebSocket, hpair, hhs, hho, hsynth]

/-- An upstream response answering 101 but without an accept token. -/
def demoRespNoAccept : UpstreamResponse :=
  ⟨101, fun _ => ""⟩

/-- An environment where everything succeeds but the upstream's 101
response has no `Sec-WebSocket-Accept` header. -/
def envNoAccept : Env :=
  ⟨true, true, true, some demoRespNoAccept, true, true, true⟩

/-- Claim C5 witness: the theorem applied to the accept-less upstream. -/
theorem missing_accept_aborts_witness :
    writeSwitchingProtocols emptyHeaderReq demoRespNoAccept =
      .error .missingAcceptToken ∧
    Event.relay ∉ handleWebSocket "http" emptyHeaderReq envNoAccept := by
  have h := missing_accept_aborts "http" emptyHeaderReq envNoAccept demoRespNoAccept
    rfl (fun hx => by simp [wsScheme] at hx) rfl rfl rfl rfl rfl rfl
  exact ⟨h.1, h.2.2.1⟩

theorem strAppend_assoc (a b c : String) : a ++ b ++ c = a ++ (b ++ c) := by
  cases a with | mk as =>
  cases b with | mk bs =>
  cases c with | mk cs =>
  show String.mk (as ++ bs ++ cs) = String.mk (as ++ (bs ++ cs))
  rw [List.append_assoc]

theorem strAppend_empty (a : String) : a ++ "" = a := by
  cases a with | mk as =>
  show String.mk (as ++ []) = String.mk as
  rw [List.append_nil]

/-- Claim C6: on success, the bytes handed to `clientConn.Write` are
exactly the 101 status line, the three fixed headers with their
case-sensitive keys, the accept token line, an optional
`Sec-WebSocket-Protocol` line, and the terminating empty line. -/
theorem synthesized_response_wire_format (r : Request) (resp : UpstreamResponse)
    (ha : resp.header "Sec-WebSocket-Accept" ≠ "") :
    synthBase (resp.header "Sec-WebSocket-Accept") =
      "HTTP/1.1 101 Switching Protocols\r\n" ++ "Upgrade: websocket\r\n" ++
        "Connection: Upgrade\r\n" ++ "Sec-WebSocket-Accept: " ++
        resp.header "Sec-WebSocket-Accept" ++ "\r\n" ∧
    ∃ opt : String,
      writeSwitchingProtocols r resp =
        .ok (synthBase (resp.header "Sec-WebSocket-Accept") ++ opt ++ "\r\n") ∧
      (opt = "" ∨
        opt = "Sec-WebSocket-Protocol: " ++
          resp.header "Sec-WebSocket-Protocol" ++ "\r\n") := by
  refine ⟨rfl, ?_⟩
  have hbeq : (resp.header "Sec-WebSocket-Accept" == "") = false := by
    rw [beq_eq_false_iff_ne]
    exact ha
  simp only [writeSwitchingProtocols, hbeq, Bool.false_eq_true, if_false]
  cases hproto : (r.header "Sec-WebSocket-Protocol" != "") with
  | false =>
    refine ⟨"", ?_, Or.inl rfl⟩
    simp [hproto, strAppend_empty]
  | true =>
    cases hcond : (resp.header "Sec-WebSocket-Protocol" != "" &&
        goContains (r.header "Sec-WebSocket-Protocol")
          (resp.header "Sec-WebSocket-Protocol")) with
    | false =>
      refine ⟨"", ?_, Or.inl rfl⟩
      simp [hproto, hcond, strAppend_empty]
    | true =>
      refine ⟨"Sec-WebSocket-Protocol: " ++
        resp.header "Sec-WebSocket-Protocol" ++ "\r\n", ?_, Or.inr rfl⟩
      simp [hproto, hcond, strAppend_assoc]

/-- Claim C6 witness: the theorem applied to the all-success upstream
response and a client that requested no sub-protocol. -/
theorem synthesized_response_wire_format_witness :
    ∃ opt : String,
      writeSwitchingProtocols emptyHeaderReq demoResp101 =
        .ok (synthBase (demoResp101.header "Sec-WebSocket-Accept") ++
          opt ++ "\r\n") ∧
      (opt = "" ∨
        opt = "Sec-WebSocket-Protocol: " ++
          demoResp101.header "Sec-WebSocket-Protocol" ++ "\r\n") :=
  (synthesized_response_wire_format emptyHeaderReq demoResp101 (by decide)).2

/-- Split a character list at commas. -/
def splitComma : List Char → List (List Char)
  | [] => [[]]
  | c :: rest =>
    if c = ',' then [] :: splitComma rest
    else
      match splitComma rest with
      | [] => [[c]]
      | g :: gs => (c :: g) :: gs

/-- Strip leading and trailing whitespace from a character list. -/
def trimChars (cs : List Char) : List Char :=
  ((cs.dropWhile Char.isWhitespace).reverse.dropWhile Char.isWhitespace).reverse

/-- The sub-protocols a client listed in its `Sec-WebSocket-Protocol`
value: the comma-separated entries, each with surrounding whitespace
removed.  This is the reading of "the sub-protocols the client listed"
in the claim; the code itself never parses the list. -/
def clientListedProtocols (value : String) : List String :=
  (splitComma value.data).map (fun cs => ⟨trimChars cs⟩)

/-- A client request listing exactly one sub-protocol, "superchat". -/
def protoClientReq : Request :=
  { header := fun name =>
      if name == "Sec-WebSocket-Protocol" then "superchat" else "",
    path := "/", rawQuery := "" }

/-- A 101 upstream response negotiating "chat", which the client did not
list (though it is a substring of "superchat"). -/
def protoBackendResp : UpstreamResponse :=
  ⟨101, fun name =>
    if name == "Sec-WebSocket-Accept" then "tok=" else
    if name == "Sec-WebSocket-Protocol" then "chat" else ""⟩

/-- Claim C4 counterexample: the client listed only "superchat" and the
upstream negotiated "chat", which is not one of the client's listed
sub-protocols — yet the synthesized response carries
`Sec-WebSocket-Protocol: chat`, because the code tests substring
containment, not list membership.  The claim's "only if the upstream's
value is one the client listed" is therefore false on the code. -/
theorem protocol_echo_counterexample :
    writeSwitchingProtocols protoClientReq protoBackendResp =
      .ok (synthBase "tok=" ++ "Sec-WebSocket-Protocol: " ++ "chat" ++
        "\r\n" ++ "\r\n") ∧
    "chat" ∉ clientListedProtocols (protoClientReq.header "Sec-WebSocket-Protocol") :=
  ⟨rfl, by decide⟩

/-- Claim C4 as amended: the synthesized response includes the
`Sec-WebSocket-Protocol` header iff the client's value is non-empty AND
the upstream's value is non-empty AND the upstream's value occurs as a
substring of the client's value (`strings.Contains`); in all other
cases the header is omitted. -/
theorem protocol_echo_amended (r : Request) (resp : UpstreamResponse)
    (ha : resp.header "Sec-WebSocket-Accept" ≠ "") :
    writeSwitchingProtocols r resp =
      .ok (synthBase (resp.header "Sec-WebSocket-Accept") ++
        (if r.header "Sec-WebSocket-Protocol" ≠ "" ∧
            resp.header "Sec-WebSocket-Protocol" ≠ "" ∧
            goContains (r.header "Sec-WebSocket-Protocol")
              (resp.header "Sec-WebSocket-Protocol") = true
         then "Sec-WebSocket-Protocol: " ++
           resp.header "Sec-WebSocket-Protocol" ++ "\r\n"
         else "") ++ "\r\n") := by
  have hbeq : (resp.header "Sec-WebSocket-Accept" == "") = false := by
    rw [beq_eq_false_iff_ne]
    exact ha
  simp only [writeSwitchingProtocols, hbeq, Bool.false_eq_true, if_false]
  cases hproto : (r.header "Sec-WebSocket-Protocol" != "") with
  | false =>
    have hp : ¬ (r.header "Sec-WebSocket-Protocol" ≠ "") := by
      simpa using hproto
    simp [hproto, hp, strAppend_empty]
  | true =>
    have hp : r.header "Sec-WebSocket-Protocol" ≠ "" := by
      simpa using hproto
    cases hbp : (resp.header "Sec-WebSocket-Protocol" != "") with
    | false =>
      have hq : ¬ (resp.header "Sec-WebSocket-Protocol" ≠ "") := by
        simpa using hbp
      simp [hproto, hbp, hq, strAppend_empty]
    | true =>
      have hq : resp.header "Sec-WebSocket-Protocol" ≠ "" := by
        simpa using hbp
      cases hgc : goContains (r.header "Sec-WebSocket-Protocol")
          (resp.header "Sec-WebSocket-Protocol") with
      | false =>
        simp [hproto, hbp, hgc, hp, hq, strAppend_empty]
      | true =>
        simp [hproto, hbp, hgc, hp, hq, strAppend_assoc]

/-- Claim C4 (amended) witness: the amended theorem applied to a client
that requested no sub-protocol; the header is omitted. -/
theorem protocol_echo_amended_witness :
    writeSwitchingProtocols emptyHeaderReq demoResp101 =
      .ok (synthBase (demoResp101.header "Sec-WebSocket-Accept") ++
        (if emptyHeaderReq.header "Sec-WebSocket-Protocol" ≠ "" ∧
            demoResp101.header "Sec-WebSocket-Protocol" ≠ "" ∧
            goContains (emptyHeaderReq.header "Sec-WebSocket-Protocol")
              (demoResp101.header "Sec-WebSocket-Protocol") = true
         then "Sec-WebSocket-Protocol: " ++
           demoResp101.header "Sec-WebSocket-Protocol" ++ "\r\n"
         else "") ++ "\r\n") :=
  protocol_echo_amended emptyHeaderReq demoResp101 (by decide)

/-- The capabilities `pipe` type-tests on its destination connection:
is it a `*tls.Conn`, and does it implement `CloseWrite() error`. -/
structure ConnCaps where
  isTLS : Bool
  hasCloseWrite : Bool
deriving DecidableEq

/-- The operations `pipe` performs on its destination connection after
the copy loop ends. -/
inductive NetAction where
  | setWriteDeadlineSeconds (n : Nat)
  | writeBytes (bs : List Nat)
  | closeWriteHalf
  | closeFull
deriving DecidableEq

/-- The close-frame bytes `pipe` writes: final bit + opcode 8, payload
length 2, status code 1000. -/
def closeFrameBytes : List Nat :=
  [0x88, 0x02, 0x03, 0xe8]

/-- The `pipe` function from `main.go`, viewed as the sequence of
actions it performs on its destination connection once `io.Copy`
returns (`copied` bytes, possibly with an error — both only logged):
set a 2-second write deadline, write the close frame, then either a
full TLS close, or a write-half close (when supported) followed by a
full close. -/
def pipe (copied : Nat) (copyErrored : Bool) (dst : ConnCaps) : List NetAction :=
  [.setWriteDeadlineSeconds 2, .writeBytes closeFrameBytes] ++
    (if dst.isTLS then [.closeFull]
     else (if dst.hasCloseWrite then [.closeWriteHalf] else []) ++ [.closeFull])

/-- Claim C7: whatever the copy outcome, `pipe`'s shutdown sequence on
its destination is exactly: the close-frame bytes 0x88 0x02 0x03 0xE8
under a 2-second write deadline, then a full close for TLS destinations,
else a half-close first when supported and then a full close. -/
theorem pipe_shutdown_sequence (copied : Nat) (copyErrored : Bool) (dst : ConnCaps) :
    pipe copied copyErrored dst =
      [.setWriteDeadlineSeconds 2, .writeBytes [136, 2, 3, 232]] ++
        (if dst.isTLS = true then [NetAction.closeFull]
         else if dst.hasCloseWrite = true then [.closeWriteHalf, .closeFull]
         else [.closeFull]) := by
  obtain ⟨t, w⟩ := dst
  cases t <;> cases w <;> rfl

/-- The synthetic upgrade request `dialBackendWebSocket` builds: method,
request target (path and query of the backend URL, which
`handleWebSocket` copies from the original request), and the headers it
sets, in program order. -/
structure UpstreamRequest where
  method : String
  path : String
  rawQuery : String
  headers : List (String × String)

/-- The request-construction part of `dialBackendWebSocket`: GET, the
original path and query, `Connection: Upgrade`, `Upgrade: websocket`,
the version and key copied verbatim, and the protocol, extensions and
authorization headers only when the original request carried them. -/
def buildUpgradeRequest (r : Request) : UpstreamRequest :=
  { method := "GET"
    path := r.path
    rawQuery := r.rawQuery
    headers :=
      [("Connection", "Upgrade"), ("Upgrade", "websocket"),
       ("Sec-WebSocket-Version", r.header "Sec-WebSocket-Version"),
       ("Sec-WebSocket-Key", r.header "Sec-WebSocket-Key")] ++
      (if r.header "Sec-WebSocket-Protocol" != "" then
        [("Sec-WebSocket-Protocol", r.header "Sec-WebSocket-Protocol")] else []) ++
      (if r.header "Sec-WebSocket-Extensions" != "" then
        [("Sec-WebSocket-Extensions", r.header "Sec-WebSocket-Extensions")] else []) ++
      (if r.header "Authorization" != "" then
        [("Authorization", r.header "Authorization")] else []) }

/-- The host:port resolution at the top of `dialBackendWebSocket`: keep
the host when it contains a colon, else append :443 for wss and :80
otherwise. -/
def resolveHostPort (scheme host : String) : String :=
  if goContains host ":" then host
  else if scheme == "wss" then host ++ ":443"
  else host ++ ":80"

/-- Claim C8: the synthetic upstream request is GET with path and query
copied unchanged, carries `Connection: Upgrade`, `Upgrade: websocket`,
the version and key verbatim, carries protocol/extensions/authorization
exactly when the original request did, and the dialed host:port defaults
to 443 for https-derived (wss) targets and 80 otherwise when the
configured host has no port. -/
theorem upstream_request_synthesis (r : Request) (targetScheme host : String) :
    (buildUpgradeRequest r).method = "GET" ∧
    (buildUpgradeRequest r).path = r.path ∧
    (buildUpgradeRequest r).rawQuery = r.rawQuery ∧
    ("Connection", "Upgrade") ∈ (buildUpgradeRequest r).headers ∧
    ("Upgrade", "websocket") ∈ (buildUpgradeRequest r).headers ∧
    ("Sec-WebSocket-Version", r.header "Sec-WebSocket-Version") ∈
      (buildUpgradeRequest r).headers ∧
    ("Sec-WebSocket-Key", r.header "Sec-WebSocket-Key") ∈
      (buildUpgradeRequest r).headers ∧
    (("Sec-WebSocket-Protocol", r.header "Sec-WebSocket-Protocol") ∈
        (buildUpgradeRequest r).headers ↔
      r.header "Sec-WebSocket-Protocol" ≠ "") ∧
    (("Sec-WebSocket-Extensions", r.header "Sec-WebSocket-Extensions") ∈
        (buildUpgradeRequest r).headers ↔
      r.header "Sec-WebSocket-Extensions" ≠ "") ∧
    (("Authorization", r.header "Authorization") ∈
        (buildUpgradeRequest r).headers ↔
      r.header "Authorization" ≠ "") ∧
    (goContains host ":" = false →
      resolveHostPort (wsScheme targetScheme) host =
        host ++ (if targetScheme == "https" then ":443" else ":80")) := by
  refine ⟨rfl, rfl, rfl, ?_, ?_, ?_, ?_, ?_, ?_, ?_, ?_⟩
  · simp [buildUpgradeRequest]
  · simp [buildUpgradeRequest]
  · simp [buildUpgradeRequest]
  · simp [buildUpgradeRequest]
  · cases hP : (r.header "Sec-WebSocket-Protocol" != "") <;>
      simp_all [buildUpgradeRequest]
  · cases hE : (r.header "Sec-WebSocket-Extensions" != "") <;>
      simp_all [buildUpgradeRequest]
  · cases hA : (r.header "Authorization" != "") <;>
      simp_all [buildUpgradeRequest]
  · intro hnc
    cases hts : (targetScheme == "https") <;>
      simp [resolveHostPort, wsScheme, hts, hnc]

/-- Claim C8 witness: the theorem applied at a request with no optional
headers and an https target host without a port. -/
theorem upstream_request_synthesis_witness :
    (buildUpgradeRequest emptyHeaderReq).method = "GET" ∧
    resolveHostPort (wsScheme "https") "backend.example" =
      "backend.example" ++ (if "https" == "https" then ":443" else ":80") := by
  have h := upstream_request_synthesis emptyHeaderReq "https" "backend.example"
  exact ⟨h.1, h.2.2.2.2.2.2.2.2.2.2 (by decide)⟩

/-- State of one tunnel pair during the relay: whether each leg's
connection is closed, whether each one-directional copy task has
finished, and whether each task has run its shutdown sequence. -/
structure RelayState where
  clientClosed : Bool
  upstreamClosed : Bool
  toUpstreamDone : Bool
  toClientDone : Bool
  toUpstreamShut : Bool
  toClientShut : Bool
deriving DecidableEq

/-- Swap the roles of the two legs of a tunnel pair. -/
def mirrorState (s : RelayState) : RelayState :=
  ⟨s.upstreamClosed, s.clientClosed, s.toClientDone, s.toUpstreamDone,
   s.toClientShut, s.toUpstreamShut⟩

/-- One scheduler pass over a tunnel pair's two copy tasks, with the leg
capabilities of the two destinations.  The first two rules are modelled
from the spec's cancellation paragraph (closing one connection
eventually unblocks its paired copy task via a read or write error);
the last two rules are `pipe`'s post-copy behavior: a finished task runs
the shutdown sequence on its destination leg, which closes that leg
because the sequence contains a full close. -/
def relayStepAll (clientCaps upstreamCaps : ConnCaps) (s : RelayState) : RelayState :=
  let s1 := if s.clientClosed && !s.toUpstreamDone then
      { s with toUpstreamDone := true } else s
  let s2 := if s1.upstreamClosed && !s1.toClientDone then
      { s1 with toClientDone := true } else s1
  let s3 := if s2.toUpstreamDone && !s2.toUpstreamShut then
      { s2 with
          toUpstreamShut := true
          upstreamClosed :=
            s2.upstreamClosed || (pipe 0 false upstreamCaps).contains .closeFull }
    else s2
  let s4 := if s3.toClientDone && !s3.toClientShut then
      { s3 with
          toClientShut := true
          clientClosed :=
            s3.clientClosed || (pipe 0 false clientCaps).contains .closeFull }
    else s3
  s4

theorem pipe_mem_closeFull (caps : ConnCaps) :
    NetAction.closeFull ∈ pipe 0 false caps := by
  obtain ⟨t, w⟩ := caps
  cases t <;> cases w <;> decide

theorem relayStepAll_caps_free (cc uc : ConnCaps) (s : RelayState) :
    relayStepAll cc uc s = relayStepAll ⟨false, false⟩ ⟨false, false⟩ s := by
  obtain ⟨a, b⟩ := cc
  obtain ⟨c, d⟩ := uc
  cases a <;> cases b <;> cases c <;> cases d <;> rfl

set_option maxHeartbeats 1000000 in
/-- Claim C9: the tunnel pair is symmetric and either side closing
terminates the other.  `pipe`'s shutdown always fully closes its
destination whatever its capabilities; from any state with one leg
closed, a scheduler pass leaves both legs closed; and the relay is
leg-symmetric — swapping the two legs commutes with the scheduler pass,
so neither leg is primary.  The hypotheses say a task that already ran
its shutdown has closed its destination, which holds of every reachable
state because the shutdown sequence fully closes the destination. -/
theorem tunnel_symmetric_close (clientCaps upstreamCaps : ConnCaps)
    (s : RelayState)
    (h : s.clientClosed = true ∨ s.upstreamClosed = true)
    (hinvU : s.toUpstreamShut = true → s.upstreamClosed = true)
    (hinvC : s.toClientShut = true → s.clientClosed = true) :
    NetAction.closeFull ∈ pipe 0 false clientCaps ∧
    NetAction.closeFull ∈ pipe 0 false upstreamCaps ∧
    (relayStepAll clientCaps upstreamCaps s).clientClosed = true ∧
    (relayStepAll clientCaps upstreamCaps s).upstreamClosed = true ∧
    mirrorState (relayStepAll clientCaps upstreamCaps s) =
      relayStepAll upstreamCaps clientCaps (mirrorState s) := by
  refine ⟨pipe_mem_closeFull clientCaps, pipe_mem_closeFull upstreamCaps, ?_⟩
  rw [relayStepAll_caps_free clientCaps upstreamCaps,
    relayStepAll_caps_free upstreamCaps clientCaps]
  obtain ⟨a, b, c, d, e, f⟩ := s
  cases a <;> cases b <;> cases c <;> cases d <;> cases e <;> cases f <;>
    first
    | decide
    | simp_all

/-- Claim C9 witness: the theorem applied to a state where the client
leg just closed, with a plain client leg and a TLS upstream leg. -/
theorem tunnel_symmetric_close_witness :
    (relayStepAll ⟨false, true⟩ ⟨true, false⟩
      ⟨true, false, false, false, false, false⟩).clientClosed = true ∧
    (relayStepAll ⟨false, true⟩ ⟨true, false⟩
      ⟨true, false, false, false, false, false⟩).upstreamClosed = true := by
  have h := tunnel_symmetric_close ⟨false, true⟩ ⟨true, false⟩
    ⟨true, false, false, false, false, false⟩ (Or.inl rfl)
    (fun hx => by simp at hx) (fun hx => by simp at hx)
  exact ⟨h.2.2.1, h.2.2.2.1⟩

end GoogleRedirector
